import Mathlib

/-!
Shallow embedding of `src/utils/supportEmail.ts` from the
`onramp-v2-mobile-demo` repository, together with proofs checking the
natural-language specification of the support-email debug-block builder
against the code.

JavaScript conventions are made explicit in the embedding:

* optional / possibly-missing string fields are `Option String`; a key that
  is present with the empty string is JS-falsy, so the truthiness test used
  by `x || y` and by `if (x)` is `jsTruthy`, and the `x || d` fallback is
  `jsOr`;
* the ambient collaborators (clock, locale, `process.env`, the shared-state
  module, `Math.random`) are gathered in an `Env` record that is passed
  explicitly; every `Math.random`/`Date.now` observation is a field of the
  record, so one `Env` value fixes one run of the builder;
* the debug-info argument of `buildDebugBlock` is a runtime JS object that
  the source discriminates by probing keys (`'flowType' in info`,
  `'guestEntityHash' in info && info.guestEntityHash`), so it is embedded as
  one record holding the fields of both `TransactionDebugInfo` and
  `GuestCheckoutDebugInfo`, every field optional (`none` = key absent).
-/

namespace SupportEmail

/-- JS truthiness of an optional string: present and not the empty string. -/
def jsTruthy : Option String → Bool
  | some s => !(s == "")
  | none => false

/-- JS `v || d` over an optional string: the value when truthy, else `d`. -/
def jsOr : Option String → String → String
  | some s, d => if s == "" then d else s
  | none, d => d

/-- `const SUPPORT_EMAIL = 'onrampsupport@coinbase.com'` (supportEmail.ts line 38). -/
def SUPPORT_EMAIL : String := "onrampsupport@coinbase.com"

/-- `const PARTNER_NAME = 'Onramp V2 Demo'` (supportEmail.ts line 39). -/
def PARTNER_NAME : String := "Onramp V2 Demo"

/-- The fixed header line of every debug block (supportEmail.ts line 136). -/
def debugHeader : String := "--- Debug Information (please do not edit) ---"

/-- The character table `'0123456789abcdef'` of `generateDeviceId`. -/
def hexChars : List Char := "0123456789abcdef".data

/-- `chars[Math.floor(Math.random() * chars.length)]` for one random draw. -/
def hexDigitChar (k : Fin 16) : Char := hexChars.getD k.val '0'

/-- `generateDeviceId` (supportEmail.ts lines 82-93): 32 random hex digits
with a dash inserted before positions 8, 12, 16 and 20.  The stream of
`Math.floor(Math.random() * 16)` draws is the explicit argument `rand`. -/
def generateDeviceId (rand : Nat → Fin 16) : String :=
  ⟨((List.range 32).map fun i =>
      (if i == 8 || i == 12 || i == 16 || i == 20 then ['-'] else [])
        ++ [hexDigitChar (rand i)]).flatten⟩

/-- `Date.now().toString(16)`: lower-case hexadecimal digits of a natural. -/
def natToHex (n : Nat) : String := ⟨Nat.toDigits 16 n⟩

/-- The global dash-removing `.replace` call: remove every dash character. -/
def removeDashes (s : String) : String := ⟨s.data.filter fun c => c != '-'⟩

/-- The ambient collaborators read by `supportEmail.ts`, one record per run:
the clock (`timestampISO`, `nowMs`, `now36`), `expo-localization`
(`locale`, `timezone`), `Intl.DateTimeFormat` (`intlTimeZone`),
`expo-application` (`nativeApplicationVersion`), `process.env`
(`envCdpProjectId`), the shared-state module (`sandboxMode`,
`partnerUserRef`) and the `Math.random` observations (`devRand`,
`randomHex8`, `random36`). -/
structure Env where
  timestampISO : String
  locale : Option String
  timezone : Option String
  intlTimeZone : String
  nativeApplicationVersion : Option String
  envCdpProjectId : Option String
  sandboxMode : Bool
  partnerUserRef : Option String
  devRand : Nat → Fin 16
  nowMs : Nat
  randomHex8 : String
  now36 : String
  random36 : String

/-- `generateSimpleEntityHash` (supportEmail.ts lines 99-104): the dashes
are removed from `partnerRef.slice(0,8) + Date.now().toString(16) + random`,
where `partnerRef = getCurrentPartnerUserRef() || ''` and `random` is
`Math.random().toString(16).substring(2, 10)`. -/
def generateSimpleEntityHash (env : Env) : String :=
  let partnerRef := jsOr env.partnerUserRef ""
  let timestamp := natToHex env.nowMs
  let random := env.randomHex8
  removeDashes (partnerRef.take 8 ++ timestamp ++ random)

/-- The runtime shape of `TransactionDebugInfo | GuestCheckoutDebugInfo`
(supportEmail.ts lines 41-76).  The source discriminates the union by
probing keys at runtime, so the embedding is a single record with every
field of both interfaces, each `Option String` (`none` = key absent). -/
structure DebugInfo where
  flowType : Option String := none
  appId : Option String := none
  partnerName : Option String := none
  deviceId : Option String := none
  guestEntityHash : Option String := none
  guestTransactionIdAtCreate : Option String := none
  guestAsset : Option String := none
  guestNetwork : Option String := none
  guestAmount : Option String := none
  guestCurrency : Option String := none
  guestPaymentMethod : Option String := none
  transactionId : Option String := none
  status : Option String := none
  purchaseCurrency : Option String := none
  purchaseNetwork : Option String := none
  purchaseAmount : Option String := none
  paymentTotal : Option String := none
  paymentCurrency : Option String := none
  paymentMethod : Option String := none
  walletAddress : Option String := none
  txHash : Option String := none
  createdAt : Option String := none
  partnerUserRef : Option String := none
  errorMessage : Option String := none
  debugMessage : Option String := none

/-- `if (x) lines.push(label + ': ' + x)`: one line when truthy, else none. -/
def optLine (label : String) (v : Option String) : List String :=
  match v with
  | some s => if s == "" then [] else [label ++ ": " ++ s]
  | none => []

/-- The pushes of the guest branch of `buildDebugBlock`
(supportEmail.ts lines 140-156), in source order. -/
def guestVariantLines (info : DebugInfo) (env : Env) (ft : String) : List String :=
  ["flowType: " ++ ft,
   "appId: " ++ jsOr info.appId (jsOr env.envCdpProjectId "unknown"),
   "partnerName: " ++ jsOr info.partnerName PARTNER_NAME,
   "deviceId: " ++ jsOr info.deviceId (generateDeviceId env.devRand),
   "guestEntityHash: " ++ jsOr info.guestEntityHash (generateSimpleEntityHash env),
   "guestAmount: " ++ jsOr info.guestAmount "0",
   "guestCurrency: " ++ jsOr info.guestCurrency "USD"]
  ++ optLine "guestAsset" info.guestAsset
  ++ optLine "guestNetwork" info.guestNetwork
  ++ optLine "guestPaymentMethod" info.guestPaymentMethod
  ++ optLine "guestTransactionIdAtCreate" info.guestTransactionIdAtCreate

/-- The pushes of the transaction branch of `buildDebugBlock`
(supportEmail.ts lines 157-180), in source order. -/
def txVariantLines (info : DebugInfo) (env : Env) : List String :=
  ["flowType: authenticated",
   "appId: " ++ jsOr env.envCdpProjectId "unknown",
   "partnerName: " ++ PARTNER_NAME,
   "deviceId: " ++ generateDeviceId env.devRand]
  ++ optLine "transactionId" info.transactionId
  ++ optLine "status" info.status
  ++ optLine "purchaseCurrency" info.purchaseCurrency
  ++ optLine "purchaseNetwork" info.purchaseNetwork
  ++ optLine "purchaseAmount" info.purchaseAmount
  ++ optLine "paymentTotal" info.paymentTotal
  ++ optLine "paymentCurrency" info.paymentCurrency
  ++ optLine "paymentMethod" info.paymentMethod
  ++ optLine "walletAddress" info.walletAddress
  ++ optLine "txHash" info.txHash
  ++ optLine "createdAt" info.createdAt
  ++ optLine "partnerUserRef" info.partnerUserRef

/-- The common tail of `buildDebugBlock` (supportEmail.ts lines 183-196):
appVersion, timestamp, locale, timezone, the conditional sandbox marker,
the conditional error lines, and the fixed footer. -/
def commonTailLines (info : DebugInfo) (env : Env) : List String :=
  ["appVersion: " ++ jsOr env.nativeApplicationVersion "unknown",
   "timestamp: " ++ env.timestampISO,
   "locale: " ++ jsOr env.locale "en-US",
   "timezone: " ++ jsOr env.timezone env.intlTimeZone]
  ++ (if env.sandboxMode then ["environment: sandbox"] else [])
  ++ optLine "errorMessage" info.errorMessage
  ++ optLine "debugMessage" info.debugMessage
  ++ ["---"]

/-- The `lines` array of `buildDebugBlock` (supportEmail.ts lines 127-196):
the fixed header, then the branch selected by `'flowType' in info`, then the
common tail. -/
def buildDebugLines (info : DebugInfo) (env : Env) : List String :=
  debugHeader ::
    (match info.flowType with
     | some ft => guestVariantLines info env ft
     | none => txVariantLines info env)
    ++ commonTailLines info env

/-- `buildDebugBlock` (supportEmail.ts line 198): `lines.join('\n')`. -/
def buildDebugBlock (info : DebugInfo) (env : Env) : String :=
  String.intercalate "\n" (buildDebugLines info env)

/-- `generateEntityHash` (supportEmail.ts lines 205-223): guest entity hash,
else transaction id, else a truncated partner-user-ref plus base-36
timestamp, else `Math.random().toString(36).substring(2, 15)`. -/
def generateEntityHash (info : DebugInfo) (env : Env) : String :=
  if jsTruthy info.guestEntityHash then jsOr info.guestEntityHash "" else
  if jsTruthy info.transactionId then jsOr info.transactionId "" else
  if jsTruthy env.partnerUserRef then
    (jsOr env.partnerUserRef "").take 8 ++ "-" ++ env.now36
  else env.random36

/-- The characters `encodeURIComponent` leaves unescaped:
ASCII letters, digits, and `- _ . ! ~ * ' ( )`. -/
def isUnescapedURIChar (c : Char) : Bool :=
  c.isAlphanum || c == '-' || c == '_' || c == '.' || c == '!' || c == '~'
    || c == '*' || c == Char.ofNat 39 || c == '(' || c == ')'

/-- UTF-8 bytes of a code point, as naturals. -/
def utf8BytesOfCode (n : Nat) : List Nat :=
  if n < 128 then [n]
  else if n < 2048 then [192 + n / 64, 128 + n % 64]
  else if n < 65536 then [224 + n / 4096, 128 + n / 64 % 64, 128 + n % 64]
  else [240 + n / 262144, 128 + n / 4096 % 64, 128 + n / 64 % 64, 128 + n % 64]

/-- Upper-case hexadecimal digit table used by percent-encoding. -/
def hexUpperChar (k : Nat) : Char := "0123456789ABCDEF".data.getD k '0'

/-- Percent-encoding of one byte, e.g. byte 32 becomes `%20`. -/
def percentEncodeByte (b : Nat) : List Char :=
  ['%', hexUpperChar (b / 16 % 16), hexUpperChar (b % 16)]

/-- `encodeURIComponent` (used in supportEmail.ts lines 240-241). -/
def encodeURIComponent (s : String) : String :=
  ⟨(s.data.map fun c =>
      if isUnescapedURIChar c then [c]
      else ((utf8BytesOfCode c.toNat).map percentEncodeByte).flatten).flatten⟩

/-- The `Linking` collaborator of `openSupportEmail`: both steps return
promises that either resolve (`Except.ok`) or reject (`Except.error`). -/
structure MailLauncher where
  canOpenURL : String → Except String Bool
  openURL : String → Except String Unit

/-- What one run of `openSupportEmail` produces: the composed subject and
body, the mailto URL handed to the launcher, and the resolved boolean. -/
structure SupportEmailResult where
  subject : String
  body : String
  mailtoUrl : String
  opened : Bool

/-- The guarded launch sequence inside the `try` block of `openSupportEmail`
(supportEmail.ts lines 246-253): `canOpenURL`, early `false` when it
resolves false, otherwise `openURL` then `true`; a rejection of either
await is an `Except.error`. -/
def launchAttempt (launcher : MailLauncher) (url : String) : Except String Bool :=
  match launcher.canOpenURL url with
  | Except.error e => Except.error e
  | Except.ok false => Except.ok false
  | Except.ok true =>
    match launcher.openURL url with
    | Except.error e => Except.error e
    | Except.ok _ => Except.ok true

/-- `openSupportEmail` (supportEmail.ts lines 231-258): compose subject,
body and mailto URL, attempt the launch, and catch any rejection as a
`false` result. -/
def openSupportEmail (info : DebugInfo) (env : Env) (launcher : MailLauncher) :
    SupportEmailResult :=
  let entityHash := generateEntityHash info env
  let subject := "Guest Checkout Support Request [" ++ entityHash ++ "]"
  let body := "[Please describe your issue here]\n\n" ++ buildDebugBlock info env
  let mailtoUrl := "mailto:" ++ SUPPORT_EMAIL ++ "?subject="
    ++ encodeURIComponent subject ++ "&body=" ++ encodeURIComponent body
  let opened :=
    match launchAttempt launcher mailtoUrl with
    | Except.ok b => b
    | Except.error _ => false
  ⟨subject, body, mailtoUrl, opened⟩

/-- A structured amount `\x7b value?: string; currency?: string \x7d` from
the transaction-history API shape (supportEmail.ts lines 268-269). -/
structure AmountObject where
  value : Option String := none
  currency : Option String := none

/-- The `purchase_amount` field: either a structured amount object or a
bare string (supportEmail.ts line 268). -/
inductive PurchaseAmount where
  | obj (a : AmountObject)
  | str (s : String)

/-- The transaction record accepted by `createDebugInfoFromTransaction`
(supportEmail.ts lines 263-274), snake_case keys, every field optional. -/
structure ApiTransaction where
  transaction_id : Option String := none
  status : Option String := none
  purchase_currency : Option String := none
  purchase_network : Option String := none
  purchase_amount : Option PurchaseAmount := none
  payment_total : Option AmountObject := none
  payment_method : Option String := none
  wallet_address : Option String := none
  tx_hash : Option String := none
  created_at : Option String := none
  partner_user_ref : Option String := none

/-- `createDebugInfoFromTransaction` (supportEmail.ts lines 263-293). -/
def createDebugInfoFromTransaction (t : ApiTransaction) (errorMessage : Option String)
    (env : Env) : DebugInfo :=
  { transactionId := t.transaction_id
    status := t.status
    purchaseCurrency := t.purchase_currency
    purchaseNetwork := t.purchase_network
    purchaseAmount :=
      match t.purchase_amount with
      | some (PurchaseAmount.obj a) => a.value
      | some (PurchaseAmount.str s) => some s
      | none => none
    paymentTotal := t.payment_total.bind AmountObject.value
    paymentCurrency := t.payment_total.bind AmountObject.currency
    paymentMethod := t.payment_method
    walletAddress := t.wallet_address
    txHash := t.tx_hash
    createdAt := t.created_at
    partnerUserRef :=
      if jsTruthy t.partner_user_ref then t.partner_user_ref
      else if jsTruthy env.partnerUserRef then env.partnerUserRef
      else none
    errorMessage := errorMessage }

/-- Spec-side notion of a field being present (the spec treats falsy and
absent alike: an empty string is not "present"). -/
def specPresent : Option String → Bool
  | some s => !(s == "")
  | none => false

/-- Spec-side fallback: the caller-supplied value when present, else the
stated fallback. -/
def specFallback (v : Option String) (fallback : String) : String :=
  if specPresent v then v.getD fallback else fallback

/-- Spec-side rendering of conditional fields: keep the labelled fields
that are present, in the given order, skipping absent ones. -/
def specConditionalLines (fields : List (String × Option String)) : List String :=
  fields.filterMap fun p =>
    match p.2 with
    | some s => if s == "" then none else some (p.1 ++ ": " ++ s)
    | none => none

/-- Spec-side description of the guest-variant field lines, written from
the spec's words: flowType, appId (fallback: context app id, else the
literal `unknown`), partnerName (fallback: static default), deviceId
(fallback: freshly generated), guestEntityHash (fallback: freshly
generated), guestAmount (fallback `0`), guestCurrency (fallback `USD`),
then conditionally guestAsset, guestNetwork, guestPaymentMethod,
guestTransactionIdAtCreate. -/
def specGuestVariantLines (info : DebugInfo) (env : Env) (ft : String) : List String :=
  ["flowType: " ++ ft,
   "appId: " ++ specFallback info.appId (specFallback env.envCdpProjectId "unknown"),
   "partnerName: " ++ specFallback info.partnerName PARTNER_NAME,
   "deviceId: " ++ specFallback info.deviceId (generateDeviceId env.devRand),
   "guestEntityHash: " ++ specFallback info.guestEntityHash (generateSimpleEntityHash env),
   "guestAmount: " ++ specFallback info.guestAmount "0",
   "guestCurrency: " ++ specFallback info.guestCurrency "USD"]
  ++ specConditionalLines
      [("guestAsset", info.guestAsset),
       ("guestNetwork", info.guestNetwork),
       ("guestPaymentMethod", info.guestPaymentMethod),
       ("guestTransactionIdAtCreate", info.guestTransactionIdAtCreate)]

/-- Spec-side description of the transaction-variant field lines, written
from the spec's words: flowType hardcoded to `authenticated`, appId
(context or `unknown`), partnerName (static default), deviceId (freshly
generated), then each optional field only if present, absent ones skipped
with the relative order of the rest preserved. -/
def specTxVariantLines (info : DebugInfo) (env : Env) : List String :=
  ["flowType: authenticated",
   "appId: " ++ specFallback env.envCdpProjectId "unknown",
   "partnerName: " ++ PARTNER_NAME,
   "deviceId: " ++ generateDeviceId env.devRand]
  ++ specConditionalLines
      [("transactionId", info.transactionId),
       ("status", info.status),
       ("purchaseCurrency", info.purchaseCurrency),
       ("purchaseNetwork", info.purchaseNetwork),
       ("purchaseAmount", info.purchaseAmount),
       ("paymentTotal", info.paymentTotal),
       ("paymentCurrency", info.paymentCurrency),
       ("paymentMethod", info.paymentMethod),
       ("walletAddress", info.walletAddress),
       ("txHash", info.txHash),
       ("createdAt", info.createdAt),
       ("partnerUserRef", info.partnerUserRef)]

/-- Spec-side description of `computeCorrelationId`, written from the
spec's words: first match wins among (1) the guest entity hash when
present, (2) the transaction id when present, (3) a truncated
partner-user-reference combined with the current time when the context
provider returns a non-absent reference, (4) a purely random string. -/
def specCorrelationId (info : DebugInfo) (env : Env) : String :=
  if specPresent info.guestEntityHash then info.guestEntityHash.getD "" else
  if specPresent info.transactionId then info.transactionId.getD "" else
  match env.partnerUserRef with
  | some r => if r == "" then env.random36 else r.take 8 ++ "-" ++ env.now36
  | none => env.random36

/-! Helper lemmas about strings, the generators, and the line lists. -/

/-- A string extending a prefix `p` cannot equal `t` when the opening
characters of `t` do not spell `p`. -/
theorem append_ne_of_take {p t : String}
    (h : t.data.take p.data.length ≠ p.data) : ∀ v : String, p ++ v ≠ t := by
  intro v he
  apply h
  rw [← he, String.data_append, List.take_left]

/-- Two label-prefixed strings are distinct when the labels disagree at
some character position inside both. -/
theorem append_ne_append {p q : String} (k : Nat)
    (h1 : k < p.data.length) (h2 : k < q.data.length)
    (h : p.data[k]? ≠ q.data[k]?) :
    ∀ v w : String, p ++ v ≠ q ++ w := by
  intro v w he
  apply h
  have h3 := congrArg (fun s => s.data[k]?) he
  simp only [String.data_append] at h3
  rwa [List.getElem?_append_left h1, List.getElem?_append_left h2] at h3

/-- A nonempty extension of `p` is not `p` itself. -/
theorem append_ne_self {p v : String} (h : v ≠ "") : p ++ v ≠ p := by
  intro he
  have h2 := congrArg (fun s => s.data.length) he
  simp only [String.data_append, List.length_append] at h2
  have h3 : v.data = [] := List.length_eq_zero.mp (by omega)
  exact h (by cases v; simp_all)

/-- A string with nonempty character data is not the empty string. -/
theorem ne_empty_of_data_ne_nil {s : String} (h : s.data ≠ []) : s ≠ "" := by
  intro he
  apply h
  rw [he]

/-- `Nat.digitChar` never yields a dash. -/
theorem digitChar_ne_dash (m : Nat) : Nat.digitChar m ≠ '-' :=
  match m with
  | 0 | 1 | 2 | 3 | 4 | 5 | 6 | 7 | 8 | 9 | 10 | 11 | 12 | 13 | 14 | 15 => by decide
  | n + 16 => by
      have h : Nat.digitChar (n + 16) = '*' := rfl
      rw [h]; decide

/-- `Nat.toDigitsCore` preserves a nonempty accumulator. -/
theorem toDigitsCore_ne_nil (b f n : Nat) (ds : List Char) (h : ds ≠ []) :
    Nat.toDigitsCore b f n ds ≠ [] := by
  induction f generalizing n ds with
  | zero => simpa [Nat.toDigitsCore] using h
  | succ f ih =>
    simp only [Nat.toDigitsCore]
    split
    · simp
    · exact ih _ _ (by simp)

/-- Base-16 digit lists are never empty. -/
theorem toDigits_ne_nil (n : Nat) : Nat.toDigits 16 n ≠ [] := by
  unfold Nat.toDigits
  simp only [Nat.toDigitsCore]
  split
  · simp
  · exact toDigitsCore_ne_nil _ _ _ _ (by simp)

/-- Every character `Nat.toDigitsCore` adds is a digit character, hence not
a dash; characters already in the accumulator are kept. -/
theorem toDigitsCore_ne_dash (b f n : Nat) (ds : List Char)
    (h : ∀ c ∈ ds, c ≠ '-') :
    ∀ c ∈ Nat.toDigitsCore b f n ds, c ≠ '-' := by
  induction f generalizing n ds with
  | zero => simpa [Nat.toDigitsCore] using h
  | succ f ih =>
    simp only [Nat.toDigitsCore]
    split
    · intro c hc
      rcases List.mem_cons.mp hc with h1 | h2
      · subst h1; exact digitChar_ne_dash _
      · exact h c h2
    · refine ih _ _ ?_
      intro c hc
      rcases List.mem_cons.mp hc with h1 | h2
      · subst h1; exact digitChar_ne_dash _
      · exact h c h2

/-- No dash occurs among the base-16 digits of a natural. -/
theorem toDigits_ne_dash (n : Nat) : ∀ c ∈ Nat.toDigits 16 n, c ≠ '-' := by
  unfold Nat.toDigits
  exact toDigitsCore_ne_dash _ _ _ _ (by simp)

/-- A generated device id is never the empty string. -/
theorem generateDeviceId_ne_empty (rand : Nat → Fin 16) :
    generateDeviceId rand ≠ "" := by
  apply ne_empty_of_data_ne_nil
  have hm : hexDigitChar (rand 0) ∈ ((List.range 32).map fun i =>
      (if i == 8 || i == 12 || i == 16 || i == 20 then ['-'] else [])
        ++ [hexDigitChar (rand i)]).flatten := by
    rw [List.mem_flatten]
    refine ⟨_, List.mem_map.mpr ⟨0, ?_, rfl⟩, ?_⟩
    · simp
    · simp
  exact List.ne_nil_of_mem hm

/-- A generated simple entity hash is never the empty string: it contains
the base-16 digits of the clock value, which are not dashes. -/
theorem generateSimpleEntityHash_ne_empty (env : Env) :
    generateSimpleEntityHash env ≠ "" := by
  apply ne_empty_of_data_ne_nil
  unfold generateSimpleEntityHash removeDashes
  obtain ⟨c, hc⟩ := List.exists_mem_of_ne_nil _ (toDigits_ne_nil env.nowMs)
  apply List.ne_nil_of_mem (a := c)
  simp only [List.mem_filter, String.data_append]
  constructor
  · simp only [List.mem_append]
    left
    right
    exact hc
  · simpa using toDigits_ne_dash env.nowMs c hc

/-- A JS fallback expression with a nonempty default is nonempty. -/
theorem jsOr_ne_empty (v : Option String) {d : String} (hd : d ≠ "") :
    jsOr v d ≠ "" := by
  cases v with
  | none => exact hd
  | some s =>
    simp only [jsOr]
    split
    · exact hd
    · rename_i hne
      simpa using hne

/-- When the value is truthy, the fallback is irrelevant. -/
theorem jsOr_of_truthy {v : Option String} (h : jsTruthy v = true) (d d' : String) :
    jsOr v d = jsOr v d' := by
  cases v with
  | none => simp [jsTruthy] at h
  | some s =>
    simp only [jsTruthy, Bool.not_eq_eq_eq_not, Bool.not_true, beq_eq_false_iff_ne] at h
    simp [jsOr, h]

/-- A line from `optLine` carries the given label, so a string that no
extension of the label equals is not among them. -/
theorem not_mem_optLine {t : String} (label : String) (v : Option String)
    (h : ∀ s, (label ++ ": ") ++ s ≠ t) : t ∉ optLine label v := by
  cases v with
  | none => simp [optLine]
  | some s =>
    simp only [optLine]
    split
    · simp
    · simp only [List.mem_singleton]
      intro he
      exact h s he.symm

/-- The line list of a guest-variant input, unfolded. -/
theorem buildDebugLines_guest (info : DebugInfo) (env : Env) {ft : String}
    (h : info.flowType = some ft) :
    buildDebugLines info env
      = debugHeader :: guestVariantLines info env ft ++ commonTailLines info env := by
  unfold buildDebugLines
  rw [h]

/-- The line list of a transaction-variant input, unfolded. -/
theorem buildDebugLines_tx (info : DebugInfo) (env : Env)
    (h : info.flowType = none) :
    buildDebugLines info env
      = debugHeader :: txVariantLines info env ++ commonTailLines info env := by
  unfold buildDebugLines
  rw [h]

/-- `jsOr` is the fallback rule the spec describes. -/
theorem jsOr_eq_specFallback (v : Option String) (d : String) :
    jsOr v d = specFallback v d := by
  cases v with
  | none => rfl
  | some s =>
    by_cases hs : s = "" <;> simp [jsOr, specFallback, specPresent, hs]

/-- The spec-side conditional rendering agrees with `optLine` one field at
a time. -/
theorem specConditionalLines_cons (l : String) (v : Option String)
    (rest : List (String × Option String)) :
    specConditionalLines ((l, v) :: rest)
      = optLine l v ++ specConditionalLines rest := by
  cases v with
  | none => simp [specConditionalLines, optLine, List.filterMap_cons]
  | some s =>
    by_cases hs : s = "" <;>
      simp [specConditionalLines, optLine, List.filterMap_cons, hs]

/-- A string different from the sandbox marker is not in the conditional
sandbox segment. -/
theorem not_mem_sandboxSeg {t : String} (b : Bool)
    (h : t ≠ "environment: sandbox") :
    t ∉ (if b then ["environment: sandbox"] else []) := by
  cases b <;> simp [h]

/-- Membership criterion for the guest-variant segment. -/
theorem not_mem_guestVariantLines {t : String} (info : DebugInfo) (env : Env)
    (ft : String)
    (h1 : t ≠ "flowType: " ++ ft)
    (h2 : t ≠ "appId: " ++ jsOr info.appId (jsOr env.envCdpProjectId "unknown"))
    (h3 : t ≠ "partnerName: " ++ jsOr info.partnerName PARTNER_NAME)
    (h4 : t ≠ "deviceId: " ++ jsOr info.deviceId (generateDeviceId env.devRand))
    (h5 : t ≠ "guestEntityHash: " ++ jsOr info.guestEntityHash (generateSimpleEntityHash env))
    (h6 : t ≠ "guestAmount: " ++ jsOr info.guestAmount "0")
    (h7 : t ≠ "guestCurrency: " ++ jsOr info.guestCurrency "USD")
    (h8 : t ∉ optLine "guestAsset" info.guestAsset)
    (h9 : t ∉ optLine "guestNetwork" info.guestNetwork)
    (h10 : t ∉ optLine "guestPaymentMethod" info.guestPaymentMethod)
    (h11 : t ∉ optLine "guestTransactionIdAtCreate" info.guestTransactionIdAtCreate) :
    t ∉ guestVariantLines info env ft := by
  intro hmem
  simp only [guestVariantLines, List.mem_append, List.mem_cons,
    List.not_mem_nil, or_false] at hmem
  rcases hmem with ((((h | h | h | h | h | h | h) | h) | h) | h) | h
  · exact h1 h
  · exact h2 h
  · exact h3 h
  · exact h4 h
  · exact h5 h
  · exact h6 h
  · exact h7 h
  · exact h8 h
  · exact h9 h
  · exact h10 h
  · exact h11 h

/-- Membership criterion for the transaction-variant segment. -/
theorem not_mem_txVariantLines {t : String} (info : DebugInfo) (env : Env)
    (h1 : t ≠ "flowType: authenticated")
    (h2 : t ≠ "appId: " ++ jsOr env.envCdpProjectId "unknown")
    (h3 : t ≠ "partnerName: " ++ PARTNER_NAME)
    (h4 : t ≠ "deviceId: " ++ generateDeviceId env.devRand)
    (h5 : t ∉ optLine "transactionId" info.transactionId)
    (h6 : t ∉ optLine "status" info.status)
    (h7 : t ∉ optLine "purchaseCurrency" info.purchaseCurrency)
    (h8 : t ∉ optLine "purchaseNetwork" info.purchaseNetwork)
    (h9 : t ∉ optLine "purchaseAmount" info.purchaseAmount)
    (h10 : t ∉ optLine "paymentTotal" info.paymentTotal)
    (h11 : t ∉ optLine "paymentCurrency" info.paymentCurrency)
    (h12 : t ∉ optLine "paymentMethod" info.paymentMethod)
    (h13 : t ∉ optLine "walletAddress" info.walletAddress)
    (h14 : t ∉ optLine "txHash" info.txHash)
    (h15 : t ∉ optLine "createdAt" info.createdAt)
    (h16 : t ∉ optLine "partnerUserRef" info.partnerUserRef) :
    t ∉ txVariantLines info env := by
  intro hmem
  simp only [txVariantLines, List.mem_append, List.mem_cons,
    List.not_mem_nil, or_false] at hmem
  rcases hmem with ((((((((((((h | h | h | h) | h) | h) | h) | h) | h) | h) | h) | h) | h) | h) | h) | h
  · exact h1 h
  · exact h2 h
  · exact h3 h
  · exact h4 h
  · exact h5 h
  · exact h6 h
  · exact h7 h
  · exact h8 h
  · exact h9 h
  · exact h10 h
  · exact h11 h
  · exact h12 h
  · exact h13 h
  · exact h14 h
  · exact h15 h
  · exact h16 h

/-- Membership criterion for the common tail. -/
theorem not_mem_commonTailLines {t : String} (info : DebugInfo) (env : Env)
    (h1 : t ≠ "appVersion: " ++ jsOr env.nativeApplicationVersion "unknown")
    (h2 : t ≠ "timestamp: " ++ env.timestampISO)
    (h3 : t ≠ "locale: " ++ jsOr env.locale "en-US")
    (h4 : t ≠ "timezone: " ++ jsOr env.timezone env.intlTimeZone)
    (h5 : t ∉ (if env.sandboxMode then ["environment: sandbox"] else []))
    (h6 : t ∉ optLine "errorMessage" info.errorMessage)
    (h7 : t ∉ optLine "debugMessage" info.debugMessage)
    (h8 : t ≠ "---") :
    t ∉ commonTailLines info env := by
  intro hmem
  simp only [commonTailLines, List.mem_append, List.mem_cons,
    List.not_mem_nil, or_false] at hmem
  rcases hmem with ((((h | h | h | h) | h) | h) | h) | h
  · exact h1 h
  · exact h2 h
  · exact h3 h
  · exact h4 h
  · exact h5 h
  · exact h6 h
  · exact h7 h
  · exact h8 h

/-- Membership criterion for the whole guest-variant debug block. -/
theorem not_mem_buildDebugLines_guest {t : String} (info : DebugInfo) (env : Env)
    {ft : String} (h : info.flowType = some ft)
    (hhdr : t ≠ debugHeader)
    (g1 : t ≠ "flowType: " ++ ft)
    (g2 : t ≠ "appId: " ++ jsOr info.appId (jsOr env.envCdpProjectId "unknown"))
    (g3 : t ≠ "partnerName: " ++ jsOr info.partnerName PARTNER_NAME)
    (g4 : t ≠ "deviceId: " ++ jsOr info.deviceId (generateDeviceId env.devRand))
    (g5 : t ≠ "guestEntityHash: " ++ jsOr info.guestEntityHash (generateSimpleEntityHash env))
    (g6 : t ≠ "guestAmount: " ++ jsOr info.guestAmount "0")
    (g7 : t ≠ "guestCurrency: " ++ jsOr info.guestCurrency "USD")
    (g8 : t ∉ optLine "guestAsset" info.guestAsset)
    (g9 : t ∉ optLine "guestNetwork" info.guestNetwork)
    (g10 : t ∉ optLine "guestPaymentMethod" info.guestPaymentMethod)
    (g11 : t ∉ optLine "guestTransactionIdAtCreate" info.guestTransactionIdAtCreate)
    (c1 : t ≠ "appVersion: " ++ jsOr env.nativeApplicationVersion "unknown")
    (c2 : t ≠ "timestamp: " ++ env.timestampISO)
    (c3 : t ≠ "locale: " ++ jsOr env.locale "en-US")
    (c4 : t ≠ "timezone: " ++ jsOr env.timezone env.intlTimeZone)
    (c5 : t ∉ (if env.sandboxMode then ["environment: sandbox"] else []))
    (c6 : t ∉ optLine "errorMessage" info.errorMessage)
    (c7 : t ∉ optLine "debugMessage" info.debugMessage)
    (c8 : t ≠ "---") :
    t ∉ buildDebugLines info env := by
  rw [buildDebugLines_guest info env h]
  intro hmem
  rcases List.mem_cons.mp hmem with h0 | hmem2
  · exact hhdr h0
  rcases List.mem_append.mp hmem2 with hA | hB
  · exact not_mem_guestVariantLines info env ft g1 g2 g3 g4 g5 g6 g7 g8 g9 g10 g11 hA
  · exact not_mem_commonTailLines info env c1 c2 c3 c4 c5 c6 c7 c8 hB

/-- A falsy value is replaced by the fallback. -/
theorem jsOr_of_falsy {v : Option String} (h : jsTruthy v = false) (d : String) :
    jsOr v d = d := by
  cases v with
  | none => rfl
  | some s =>
    simp only [jsTruthy, Bool.not_eq_eq_eq_not, Bool.not_false] at h
    simp [jsOr, h]

/-- With the empty string as fallback, `jsOr` is `Option.getD`. -/
theorem jsOr_empty_getD (v : Option String) : jsOr v "" = v.getD "" := by
  cases v with
  | none => rfl
  | some s => by_cases hs : s = "" <;> simp [jsOr, hs]

/-- The spec's notion of presence is JS truthiness. -/
theorem specPresent_eq_jsTruthy (v : Option String) : specPresent v = jsTruthy v := by
  cases v <;> rfl

/-- The spec-side conditional rendering of no fields is empty. -/
theorem specConditionalLines_nil : specConditionalLines [] = [] := rfl

/-- The source's guest-variant pushes produce exactly the spec-side lines. -/
theorem guestVariantLines_eq_spec (info : DebugInfo) (env : Env) (ft : String) :
    guestVariantLines info env ft = specGuestVariantLines info env ft := by
  simp only [guestVariantLines, specGuestVariantLines, specConditionalLines_cons,
    specConditionalLines_nil, jsOr_eq_specFallback, List.append_nil,
    List.append_assoc]

/-- The source's transaction-variant pushes produce exactly the spec-side
lines. -/
theorem txVariantLines_eq_spec (info : DebugInfo) (env : Env) :
    txVariantLines info env = specTxVariantLines info env := by
  simp only [txVariantLines, specTxVariantLines, specConditionalLines_cons,
    specConditionalLines_nil, jsOr_eq_specFallback, List.append_nil,
    List.append_assoc]

/-! Concrete inputs used by the witnesses. -/

/-- A concrete environment for one run. -/
def envW : Env :=
  { timestampISO := "2024-01-01T00:00:00.000Z"
    locale := some "en-US"
    timezone := some "America/New_York"
    intlTimeZone := "UTC"
    nativeApplicationVersion := some "1.2.3"
    envCdpProjectId := some "proj-1234"
    sandboxMode := false
    partnerUserRef := some "user-ref-12345"
    devRand := fun _ => 3
    nowMs := 1704067200000
    randomHex8 := "a1b2c3d4"
    now36 := "kabc123"
    random36 := "zrandomfall" }

/-- A later run: same deterministic collaborators as `envW`, fresh clock
and randomness. -/
def envW2 : Env :=
  { timestampISO := "2024-01-01T00:05:00.000Z"
    locale := some "en-US"
    timezone := some "America/New_York"
    intlTimeZone := "UTC"
    nativeApplicationVersion := some "1.2.3"
    envCdpProjectId := some "proj-1234"
    sandboxMode := false
    partnerUserRef := some "user-ref-12345"
    devRand := fun _ => 7
    nowMs := 1704067500000
    randomHex8 := "99887766"
    now36 := "kabc999"
    random36 := "qotherfall" }

/-- The round-trip guest input of the spec scenario. -/
def infoGuestW : DebugInfo :=
  { flowType := some "guest"
    partnerName := some "Acme"
    guestAmount := some "5.00"
    guestCurrency := some "USD"
    errorMessage := some "card_declined" }

/-- A guest input carrying nothing beyond the discriminant. -/
def infoGuestBare : DebugInfo :=
  { flowType := some "guest"
    partnerName := some "Acme" }

/-- A transaction-variant input (no `flowType` key). -/
def infoTxW : DebugInfo :=
  { transactionId := some "tx-12345"
    status := some "ONRAMP_TRANSACTION_STATUS_FAILED"
    purchaseAmount := some "7.79" }

/-- A runtime object carrying both a guest entity hash and a transaction
id, to exercise the correlation-id precedence. -/
def infoBothW : DebugInfo :=
  { guestEntityHash := some "guesthash-abc"
    transactionId := some "tx-99999" }

/-- A concrete transaction-history record with a structured amount. -/
def txRecordW : ApiTransaction :=
  { transaction_id := some "11111111-2222-4333-8444-555555555555"
    status := some "ONRAMP_TRANSACTION_STATUS_FAILED"
    purchase_currency := some "USDC"
    purchase_amount := some (PurchaseAmount.obj { value := some "7.79", currency := some "USDC" })
    payment_total := some { value := some "10.00", currency := some "USD" } }

/-! The claims. -/

/-- C1: for every GuestCheckoutDebugInfo input, buildDebugBlock emits the
field lines in this exact order: flowType, appId (fallback: context app
id, else the literal `unknown`), partnerName (fallback: the static default
name), deviceId (fallback: freshly generated), guestEntityHash (fallback:
freshly generated), guestAmount, guestCurrency, then guestAsset,
guestNetwork, guestPaymentMethod, guestTransactionIdAtCreate, the last
four each emitted only if present. -/
theorem claim_C1_guest_field_order (info : DebugInfo) (env : Env) (ft : String)
    (h : info.flowType = some ft) :
    buildDebugLines info env
      = debugHeader :: specGuestVariantLines info env ft ++ commonTailLines info env := by
  rw [buildDebugLines_guest info env h, guestVariantLines_eq_spec]

/-- Witness for C1: the round-trip guest input at a concrete environment. -/
theorem claim_C1_witness :
    buildDebugLines infoGuestW envW
      = debugHeader :: specGuestVariantLines infoGuestW envW "guest"
          ++ commonTailLines infoGuestW envW :=
  claim_C1_guest_field_order infoGuestW envW "guest" rfl

/-- C2: for every TransactionDebugInfo input (no flowType field),
buildDebugBlock emits flowType hardcoded to `authenticated`, then appId
(context or `unknown`), partnerName (static default), a freshly generated
deviceId, then the optional fields in the fixed order transactionId,
status, purchaseCurrency, purchaseNetwork, purchaseAmount, paymentTotal,
paymentCurrency, paymentMethod, walletAddress, txHash, createdAt,
partnerUserRef, each emitted only if present, with absent ones skipped and
the relative order of the remaining ones preserved. -/
theorem claim_C2_tx_field_order (info : DebugInfo) (env : Env)
    (h : info.flowType = none) :
    buildDebugLines info env
      = debugHeader :: specTxVariantLines info env ++ commonTailLines info env := by
  rw [buildDebugLines_tx info env h, txVariantLines_eq_spec]

/-- Witness for C2: a concrete transaction input at a concrete environment. -/
theorem claim_C2_witness :
    buildDebugLines infoTxW envW
      = debugHeader :: specTxVariantLines infoTxW envW ++ commonTailLines infoTxW envW :=
  claim_C2_tx_field_order infoTxW envW rfl

/-- C3: for every GuestCheckoutDebugInfo input, the emitted block always
contains a guestAmount line and a guestCurrency line, even when the
corresponding input fields are absent, in which case they default to `0`
and `USD` respectively. -/
theorem claim_C3_guest_amount_currency_defaults (info : DebugInfo) (env : Env)
    (ft : String) (h : info.flowType = some ft) :
    ∃ a c, ("guestAmount: " ++ a) ∈ buildDebugLines info env
      ∧ ("guestCurrency: " ++ c) ∈ buildDebugLines info env
      ∧ (jsTruthy info.guestAmount = false → a = "0")
      ∧ (jsTruthy info.guestCurrency = false → c = "USD") := by
  refine ⟨jsOr info.guestAmount "0", jsOr info.guestCurrency "USD", ?_, ?_, ?_, ?_⟩
  · rw [buildDebugLines_guest info env h]
    simp [guestVariantLines]
  · rw [buildDebugLines_guest info env h]
    simp [guestVariantLines]
  · intro hf
    exact jsOr_of_falsy hf _
  · intro hf
    exact jsOr_of_falsy hf _

/-- Witness for C3: a guest input with no amount and no currency. -/
theorem claim_C3_witness :
    ∃ a c, ("guestAmount: " ++ a) ∈ buildDebugLines infoGuestBare envW
      ∧ ("guestCurrency: " ++ c) ∈ buildDebugLines infoGuestBare envW
      ∧ (jsTruthy infoGuestBare.guestAmount = false → a = "0")
      ∧ (jsTruthy infoGuestBare.guestCurrency = false → c = "USD") :=
  claim_C3_guest_amount_currency_defaults infoGuestBare envW "guest" rfl

/-- C4: computeCorrelationId (generateEntityHash) follows this precedence,
first match winning: (1) the guest variant's guestEntityHash if present;
(2) the transaction variant's transactionId if present; (3) a value derived
from the context provider's current partner-user-reference (truncated)
combined with the current time, used only when the context provider
returns a non-absent reference; (4) otherwise a purely random fallback
string.  In particular, given an input with both a guest entity hash and a
transaction id, the guest entity hash wins. -/
theorem claim_C4_correlation_precedence (info : DebugInfo) (env : Env) :
    generateEntityHash info env = specCorrelationId info env
    ∧ (jsTruthy info.guestEntityHash = true → jsTruthy info.transactionId = true →
        generateEntityHash info env = info.guestEntityHash.getD "") := by
  constructor
  · unfold generateEntityHash specCorrelationId
    rw [specPresent_eq_jsTruthy, specPresent_eq_jsTruthy, jsOr_empty_getD, jsOr_empty_getD]
    by_cases h1 : jsTruthy info.guestEntityHash = true
    · rw [if_pos h1, if_pos h1]
    · rw [if_neg h1, if_neg h1]
      by_cases h2 : jsTruthy info.transactionId = true
      · rw [if_pos h2, if_pos h2]
      · rw [if_neg h2, if_neg h2]
        cases hp : env.partnerUserRef with
        | none => simp [jsTruthy]
        | some r =>
          by_cases hr : r = ""
          · subst hr
            simp [jsTruthy, jsOr]
          · simp [jsTruthy, jsOr, hr]
  · intro h1 _
    unfold generateEntityHash
    rw [if_pos h1, jsOr_empty_getD]

/-- Witness for C4: with both a guest entity hash and a transaction id
present, the guest entity hash wins. -/
theorem claim_C4_witness :
    generateEntityHash infoBothW envW = specCorrelationId infoBothW envW
    ∧ generateEntityHash infoBothW envW = "guesthash-abc" := by
  have h := claim_C4_correlation_precedence infoBothW envW
  exact ⟨h.1, h.2 (by decide) (by decide)⟩

/-- C7: for every transaction record, the normalizer
(createDebugInfoFromTransaction) maps the purchase-amount field as
follows: if purchase_amount is a structured amount object, the resulting
purchaseAmount is its value sub-field and the object's currency sub-field
is discarded (currency is taken separately from purchase_currency); if
purchase_amount is a bare value, it is used directly. -/
theorem claim_C7_purchase_amount_mapping (t : ApiTransaction)
    (err : Option String) (env : Env) :
    (∀ a, t.purchase_amount = some (PurchaseAmount.obj a) →
        (createDebugInfoFromTransaction t err env).purchaseAmount = a.value)
    ∧ (∀ s, t.purchase_amount = some (PurchaseAmount.str s) →
        (createDebugInfoFromTransaction t err env).purchaseAmount = some s)
    ∧ (t.purchase_amount = none →
        (createDebugInfoFromTransaction t err env).purchaseAmount = none)
    ∧ (createDebugInfoFromTransaction t err env).purchaseCurrency
        = t.purchase_currency := by
  refine ⟨?_, ?_, ?_, rfl⟩
  · intro a ha
    simp [createDebugInfoFromTransaction, ha]
  · intro s hs
    simp [createDebugInfoFromTransaction, hs]
  · intro hn
    simp [createDebugInfoFromTransaction, hn]

/-- Witness for C7: the structured amount of the spec scenario normalizes
to its value, with the currency taken from the separate field. -/
theorem claim_C7_witness :
    (createDebugInfoFromTransaction txRecordW none envW).purchaseAmount = some "7.79"
    ∧ (createDebugInfoFromTransaction txRecordW none envW).purchaseCurrency = some "USDC" := by
  have h := claim_C7_purchase_amount_mapping txRecordW none envW
  exact ⟨h.1 _ rfl, h.2.2.2.trans rfl⟩

/-- A runtime object with none of the keys of either variant: it is
recognizable as neither a guest nor a transaction input. -/
def infoEmptyW : DebugInfo := {}

/-- A launcher whose `canOpenURL` resolves `false` (no mail client). -/
def launcherW : MailLauncher :=
  { canOpenURL := fun _ => Except.ok false
    openURL := fun _ => Except.ok () }

/-- C5 (amended): buildDebugBlock has no fail-fast path at all: an input
recognizable as neither variant (no flowType key, none of either variant's
fields) is silently formatted through the transaction branch, producing a
complete block with `flowType: authenticated`; no contract violation is
raised. -/
theorem claim_C5_no_fail_fast (env : Env) :
    buildDebugLines infoEmptyW env
      = [debugHeader, "flowType: authenticated",
         "appId: " ++ jsOr env.envCdpProjectId "unknown",
         "partnerName: " ++ PARTNER_NAME,
         "deviceId: " ++ generateDeviceId env.devRand,
         "appVersion: " ++ jsOr env.nativeApplicationVersion "unknown",
         "timestamp: " ++ env.timestampISO,
         "locale: " ++ jsOr env.locale "en-US",
         "timezone: " ++ jsOr env.timezone env.intlTimeZone]
        ++ (if env.sandboxMode then ["environment: sandbox"] else []) ++ ["---"] := by
  simp [buildDebugLines, infoEmptyW, txVariantLines, commonTailLines, optLine]

/-- Counterexample for C5 as stated: at a concrete malformed input (no
recognizable variant fields) and concrete environment, buildDebugBlock
silently returns a fully formatted block instead of failing fast. -/
theorem claim_C5_counterexample :
    buildDebugBlock infoEmptyW envW
      = "--- Debug Information (please do not edit) ---\nflowType: authenticated\nappId: proj-1234\npartnerName: Onramp V2 Demo\ndeviceId: 33333333-3333-3333-3333-333333333333\nappVersion: 1.2.3\ntimestamp: 2024-01-01T00:00:00.000Z\nlocale: en-US\ntimezone: America/New_York\n---" := by
  set_option maxRecDepth 4000 in decide

/-- C9: for every DebugInfo input, when the Mail Launcher reports it
cannot open the target (or the launch attempt raises), openSupportEmail
resolves to the boolean false and never propagates an uncaught fault to
the caller; the composed subject and body text are still well-formed
regardless of the launch outcome. -/
theorem claim_C9_launch_failure_safe (info : DebugInfo) (env : Env)
    (launcher : MailLauncher) :
    (openSupportEmail info env launcher).subject
        = "Guest Checkout Support Request [" ++ generateEntityHash info env ++ "]"
    ∧ (openSupportEmail info env launcher).body
        = "[Please describe your issue here]\n\n" ++ buildDebugBlock info env
    ∧ (launchAttempt launcher (openSupportEmail info env launcher).mailtoUrl = Except.ok true
        → (openSupportEmail info env launcher).opened = true)
    ∧ (launchAttempt launcher (openSupportEmail info env launcher).mailtoUrl ≠ Except.ok true
        → (openSupportEmail info env launcher).opened = false) := by
  have heq : (openSupportEmail info env launcher).opened
      = match launchAttempt launcher (openSupportEmail info env launcher).mailtoUrl with
        | Except.ok b => b
        | Except.error _ => false := rfl
  refine ⟨rfl, rfl, ?_, ?_⟩
  · intro h
    rw [heq, h]
  · intro h
    rw [heq]
    cases hl : launchAttempt launcher (openSupportEmail info env launcher).mailtoUrl with
    | ok b =>
      cases b with
      | true => exact absurd hl h
      | false => rfl
    | error e => rfl

/-- Witness for C9: a launcher with no registered mail client yields a
`false` result. -/
theorem claim_C9_witness :
    (openSupportEmail infoGuestW envW launcherW).opened = false := by
  have h := claim_C9_launch_failure_safe infoGuestW envW launcherW
  refine h.2.2.2 ?_
  intro hc
  simp [launchAttempt, launcherW] at hc

/-- The deterministic collaborators of two runs agree: locale, timezone,
OS timezone, app version, project id, sandbox flag and partner-user-ref.
The clock and the random draws may differ. -/
def detEq (e1 e2 : Env) : Prop :=
  e1.locale = e2.locale ∧ e1.timezone = e2.timezone
  ∧ e1.intlTimeZone = e2.intlTimeZone
  ∧ e1.nativeApplicationVersion = e2.nativeApplicationVersion
  ∧ e1.envCdpProjectId = e2.envCdpProjectId ∧ e1.sandboxMode = e2.sandboxMode
  ∧ e1.partnerUserRef = e2.partnerUserRef

/-- Two corresponding output lines agree statically: they are byte
identical, or both are the timestamp line, or both are the deviceId line
and the caller supplied no device id (the transaction branch never uses
one), or both are the guestEntityHash line and the caller supplied no
entity hash. -/
def StaticAgree (info : DebugInfo) (s1 s2 : String) : Prop :=
  s1 = s2
  ∨ (∃ v w, s1 = "timestamp: " ++ v ∧ s2 = "timestamp: " ++ w)
  ∨ ((info.flowType = none ∨ jsTruthy info.deviceId = false)
      ∧ ∃ v w, s1 = "deviceId: " ++ v ∧ s2 = "deviceId: " ++ w)
  ∨ (jsTruthy info.guestEntityHash = false
      ∧ ∃ v w, s1 = "guestEntityHash: " ++ v ∧ s2 = "guestEntityHash: " ++ w)

/-- C8: two-run determinism of static parts: for every DebugInfo input,
calling buildDebugBlock twice with the same input and the same
deterministic collaborator values produces outputs that differ only in
the timestamp line and in the freshly generated fallback identifiers
(deviceId, guestEntityHash) when those are not supplied by the caller;
all other lines are byte-identical between the two runs. -/
theorem claim_C8_static_determinism (info : DebugInfo) (e1 e2 : Env)
    (h : detEq e1 e2) :
    List.Forall₂ (StaticAgree info) (buildDebugLines info e1) (buildDebugLines info e2) := by
  obtain ⟨hlo, htz, hitz, hav, hcdp, hsb, hpr⟩ := h
  have hrefl : ∀ l : List String, List.Forall₂ (StaticAgree info) l l := by
    intro l
    induction l with
    | nil => exact List.Forall₂.nil
    | cons a l ih => exact List.Forall₂.cons (Or.inl rfl) ih
  have htail : List.Forall₂ (StaticAgree info)
      (commonTailLines info e1) (commonTailLines info e2) := by
    unfold commonTailLines
    refine List.rel_append (List.rel_append (List.rel_append (List.rel_append ?_ ?_) ?_) ?_) ?_
    · refine List.Forall₂.cons (Or.inl (by rw [hav])) ?_
      refine List.Forall₂.cons
        (Or.inr (Or.inl ⟨e1.timestampISO, e2.timestampISO, rfl, rfl⟩)) ?_
      refine List.Forall₂.cons (Or.inl (by rw [hlo])) ?_
      exact List.Forall₂.cons (Or.inl (by rw [htz, hitz])) List.Forall₂.nil
    · rw [hsb]
      exact hrefl _
    · exact hrefl _
    · exact hrefl _
    · exact hrefl _
  unfold buildDebugLines
  cases hfl : info.flowType with
  | some ft =>
    refine List.Forall₂.cons (Or.inl rfl) (List.rel_append ?_ htail)
    unfold guestVariantLines
    refine List.rel_append (List.rel_append (List.rel_append (List.rel_append ?_ ?_) ?_) ?_) ?_
    · refine List.Forall₂.cons (Or.inl rfl) ?_
      refine List.Forall₂.cons (Or.inl (by rw [hcdp])) ?_
      refine List.Forall₂.cons (Or.inl rfl) ?_
      refine List.Forall₂.cons ?_ ?_
      · cases hd : jsTruthy info.deviceId with
        | true =>
          exact Or.inl (by
            rw [jsOr_of_truthy hd (generateDeviceId e1.devRand) (generateDeviceId e2.devRand)])
        | false => exact Or.inr (Or.inr (Or.inl ⟨Or.inr hd, _, _, rfl, rfl⟩))
      refine List.Forall₂.cons ?_ ?_
      · cases hg : jsTruthy info.guestEntityHash with
        | true =>
          exact Or.inl (by
            rw [jsOr_of_truthy hg (generateSimpleEntityHash e1) (generateSimpleEntityHash e2)])
        | false => exact Or.inr (Or.inr (Or.inr ⟨hg, _, _, rfl, rfl⟩))
      refine List.Forall₂.cons (Or.inl rfl) ?_
      exact List.Forall₂.cons (Or.inl rfl) List.Forall₂.nil
    · exact hrefl _
    · exact hrefl _
    · exact hrefl _
    · exact hrefl _
  | none =>
    refine List.Forall₂.cons (Or.inl rfl) (List.rel_append ?_ htail)
    unfold txVariantLines
    refine List.rel_append (List.rel_append (List.rel_append (List.rel_append
      (List.rel_append (List.rel_append (List.rel_append (List.rel_append
        (List.rel_append (List.rel_append (List.rel_append (List.rel_append
          ?_ ?_) ?_) ?_) ?_) ?_) ?_) ?_) ?_) ?_) ?_) ?_) ?_
    · refine List.Forall₂.cons (Or.inl rfl) ?_
      refine List.Forall₂.cons (Or.inl (by rw [hcdp])) ?_
      refine List.Forall₂.cons (Or.inl rfl) ?_
      exact List.Forall₂.cons
        (Or.inr (Or.inr (Or.inl ⟨Or.inl hfl, _, _, rfl, rfl⟩))) List.Forall₂.nil
    · exact hrefl _
    · exact hrefl _
    · exact hrefl _
    · exact hrefl _
    · exact hrefl _
    · exact hrefl _
    · exact hrefl _
    · exact hrefl _
    · exact hrefl _
    · exact hrefl _
    · exact hrefl _
    · exact hrefl _

/-- Witness for C8: the round-trip guest input under two runs that share
the deterministic collaborators but differ in clock and randomness. -/
theorem claim_C8_witness :
    List.Forall₂ (StaticAgree infoGuestW) (buildDebugLines infoGuestW envW)
      (buildDebugLines infoGuestW envW2) :=
  claim_C8_static_determinism infoGuestW envW envW2 ⟨rfl, rfl, rfl, rfl, rfl, rfl, rfl⟩

/-- A concrete environment with the sandbox flag on. -/
def envSandboxW : Env := { envW with sandboxMode := true }

/-- C6: for every DebugInfo input, buildDebugBlock emits an
`environment: sandbox` line if and only if the context provider reports
sandbox mode active; when emitted, exactly one such line appears,
positioned immediately after the timezone line and before any
errorMessage/debugMessage lines. -/
theorem claim_C6_sandbox_marker (info : DebugInfo) (env : Env) :
    ((buildDebugLines info env).count "environment: sandbox"
        = if env.sandboxMode then 1 else 0)
    ∧ (env.sandboxMode = true →
        ∃ A, buildDebugLines info env
          = A ++ ("timezone: " ++ jsOr env.timezone env.intlTimeZone)
              :: "environment: sandbox"
              :: (optLine "errorMessage" info.errorMessage
                  ++ optLine "debugMessage" info.debugMessage ++ ["---"])) := by
  constructor
  · have hvar0 : "environment: sandbox"
        ∉ (match info.flowType with
           | some ft => guestVariantLines info env ft
           | none => txVariantLines info env) := by
      cases hfl : info.flowType with
      | some ft =>
        refine not_mem_guestVariantLines info env ft
          ((append_ne_of_take (by decide) ft).symm)
          ((append_ne_of_take (by decide) _).symm)
          ((append_ne_of_take (by decide) _).symm)
          ((append_ne_of_take (by decide) _).symm)
          ((append_ne_of_take (by decide) _).symm)
          ((append_ne_of_take (by decide) _).symm)
          ((append_ne_of_take (by decide) _).symm)
          (not_mem_optLine _ _ fun s => append_ne_of_take (by decide) s)
          (not_mem_optLine _ _ fun s => append_ne_of_take (by decide) s)
          (not_mem_optLine _ _ fun s => append_ne_of_take (by decide) s)
          (not_mem_optLine _ _ fun s => append_ne_of_take (by decide) s)
      | none =>
        refine not_mem_txVariantLines info env
          (by decide)
          ((append_ne_of_take (by decide) _).symm)
          (by decide)
          ((append_ne_of_take (by decide) _).symm)
          (not_mem_optLine _ _ fun s => append_ne_of_take (by decide) s)
          (not_mem_optLine _ _ fun s => append_ne_of_take (by decide) s)
          (not_mem_optLine _ _ fun s => append_ne_of_take (by decide) s)
          (not_mem_optLine _ _ fun s => append_ne_of_take (by decide) s)
          (not_mem_optLine _ _ fun s => append_ne_of_take (by decide) s)
          (not_mem_optLine _ _ fun s => append_ne_of_take (by decide) s)
          (not_mem_optLine _ _ fun s => append_ne_of_take (by decide) s)
          (not_mem_optLine _ _ fun s => append_ne_of_take (by decide) s)
          (not_mem_optLine _ _ fun s => append_ne_of_take (by decide) s)
          (not_mem_optLine _ _ fun s => append_ne_of_take (by decide) s)
          (not_mem_optLine _ _ fun s => append_ne_of_take (by decide) s)
          (not_mem_optLine _ _ fun s => append_ne_of_take (by decide) s)
    have hcnt_tail : (commonTailLines info env).count "environment: sandbox"
        = if env.sandboxMode then 1 else 0 := by
      unfold commonTailLines
      rw [List.count_append, List.count_append, List.count_append, List.count_append]
      have c1 : (["appVersion: " ++ jsOr env.nativeApplicationVersion "unknown",
          "timestamp: " ++ env.timestampISO,
          "locale: " ++ jsOr env.locale "en-US",
          "timezone: " ++ jsOr env.timezone env.intlTimeZone] : List String).count
            "environment: sandbox" = 0 := by
        refine List.count_eq_zero.mpr ?_
        intro hm
        rcases List.mem_cons.mp hm with h | hm
        · exact (append_ne_of_take (by decide) _) h.symm
        rcases List.mem_cons.mp hm with h | hm
        · exact (append_ne_of_take (by decide) _) h.symm
        rcases List.mem_cons.mp hm with h | hm
        · exact (append_ne_of_take (by decide) _) h.symm
        rcases List.mem_cons.mp hm with h | hm
        · exact (append_ne_of_take (by decide) _) h.symm
        · exact List.not_mem_nil _ hm
      have c2 : (if env.sandboxMode then ["environment: sandbox"] else []).count
          "environment: sandbox" = if env.sandboxMode then 1 else 0 := by
        cases env.sandboxMode <;> simp
      have c3 : (optLine "errorMessage" info.errorMessage).count
          "environment: sandbox" = 0 :=
        List.count_eq_zero.mpr
          (not_mem_optLine _ _ fun s => append_ne_of_take (by decide) s)
      have c4 : (optLine "debugMessage" info.debugMessage).count
          "environment: sandbox" = 0 :=
        List.count_eq_zero.mpr
          (not_mem_optLine _ _ fun s => append_ne_of_take (by decide) s)
      have c5 : (["---"] : List String).count "environment: sandbox" = 0 := by decide
      rw [c1, c2, c3, c4, c5]
      cases env.sandboxMode <;> simp
    unfold buildDebugLines
    rw [List.count_append, List.count_cons, List.count_eq_zero.mpr hvar0, hcnt_tail]
    have hhdr : (debugHeader == "environment: sandbox") = false := by decide
    rw [hhdr]
    cases env.sandboxMode <;> simp
  · intro hsb
    refine ⟨debugHeader
      :: (match info.flowType with
          | some ft => guestVariantLines info env ft
          | none => txVariantLines info env)
      ++ ["appVersion: " ++ jsOr env.nativeApplicationVersion "unknown",
          "timestamp: " ++ env.timestampISO,
          "locale: " ++ jsOr env.locale "en-US"], ?_⟩
    unfold buildDebugLines commonTailLines
    rw [hsb]
    simp [List.append_assoc]

/-- Witness for C6: with the sandbox flag on, the marker line sits right
after the timezone line and before the error lines. -/
theorem claim_C6_witness :
    ∃ A, buildDebugLines infoGuestW envSandboxW
      = A ++ ("timezone: " ++ jsOr envSandboxW.timezone envSandboxW.intlTimeZone)
          :: "environment: sandbox"
          :: (optLine "errorMessage" infoGuestW.errorMessage
              ++ optLine "debugMessage" infoGuestW.debugMessage ++ ["---"]) :=
  (claim_C6_sandbox_marker infoGuestW envSandboxW).2 rfl

/-- A guest input whose every optional field is the empty string. -/
def infoGuestFalsy : DebugInfo :=
  { flowType := some "guest"
    appId := some ""
    partnerName := some ""
    deviceId := some ""
    guestEntityHash := some ""
    guestAmount := some ""
    guestCurrency := some ""
    guestAsset := some ""
    guestNetwork := some ""
    guestPaymentMethod := some ""
    guestTransactionIdAtCreate := some "" }

/-- C10 (implicit): for every GuestCheckoutDebugInfo input, a falsy
caller-supplied value (e.g. the empty string) for appId, partnerName,
deviceId, guestEntityHash, guestAmount, or guestCurrency is treated
exactly as if the field were absent — the corresponding fallback or
default is emitted instead, so none of these lines is ever emitted with an
empty value — and the conditional fields guestAsset, guestNetwork,
guestPaymentMethod, guestTransactionIdAtCreate are omitted entirely when
supplied as the empty string. -/
theorem claim_C10_falsy_guest_fields (info : DebugInfo) (env : Env) (ft : String)
    (h : info.flowType = some ft) :
    (buildDebugLines { info with appId := some "" } env
        = buildDebugLines { info with appId := none } env)
    ∧ (buildDebugLines { info with partnerName := some "" } env
        = buildDebugLines { info with partnerName := none } env)
    ∧ (buildDebugLines { info with deviceId := some "" } env
        = buildDebugLines { info with deviceId := none } env)
    ∧ (buildDebugLines { info with guestEntityHash := some "" } env
        = buildDebugLines { info with guestEntityHash := none } env)
    ∧ (buildDebugLines { info with guestAmount := some "" } env
        = buildDebugLines { info with guestAmount := none } env)
    ∧ (buildDebugLines { info with guestCurrency := some "" } env
        = buildDebugLines { info with guestCurrency := none } env)
    ∧ (buildDebugLines { info with guestAsset := some "" } env
        = buildDebugLines { info with guestAsset := none } env)
    ∧ (buildDebugLines { info with guestNetwork := some "" } env
        = buildDebugLines { info with guestNetwork := none } env)
    ∧ (buildDebugLines { info with guestPaymentMethod := some "" } env
        = buildDebugLines { info with guestPaymentMethod := none } env)
    ∧ (buildDebugLines { info with guestTransactionIdAtCreate := some "" } env
        = buildDebugLines { info with guestTransactionIdAtCreate := none } env)
    ∧ ("appId: " ∉ buildDebugLines info env)
    ∧ ("partnerName: " ∉ buildDebugLines info env)
    ∧ ("deviceId: " ∉ buildDebugLines info env)
    ∧ ("guestEntityHash: " ∉ buildDebugLines info env)
    ∧ ("guestAmount: " ∉ buildDebugLines info env)
    ∧ ("guestCurrency: " ∉ buildDebugLines info env)
    ∧ (info.guestAsset = some "" →
        ∀ v, ("guestAsset: " ++ v) ∉ buildDebugLines info env)
    ∧ (info.guestNetwork = some "" →
        ∀ v, ("guestNetwork: " ++ v) ∉ buildDebugLines info env)
    ∧ (info.guestPaymentMethod = some "" →
        ∀ v, ("guestPaymentMethod: " ++ v) ∉ buildDebugLines info env)
    ∧ (info.guestTransactionIdAtCreate = some "" →
        ∀ v, ("guestTransactionIdAtCreate: " ++ v) ∉ buildDebugLines info env) := by
  refine ⟨?_, ?_, ?_, ?_, ?_, ?_, ?_, ?_, ?_, ?_, ?_, ?_, ?_, ?_, ?_, ?_, ?_, ?_, ?_, ?_⟩
  · rw [buildDebugLines_guest { info with appId := some "" } env h,
        buildDebugLines_guest { info with appId := none } env h]
    rfl
  · rw [buildDebugLines_guest { info with partnerName := some "" } env h,
        buildDebugLines_guest { info with partnerName := none } env h]
    rfl
  · rw [buildDebugLines_guest { info with deviceId := some "" } env h,
        buildDebugLines_guest { info with deviceId := none } env h]
    rfl
  · rw [buildDebugLines_guest { info with guestEntityHash := some "" } env h,
        buildDebugLines_guest { info with guestEntityHash := none } env h]
    rfl
  · rw [buildDebugLines_guest { info with guestAmount := some "" } env h,
        buildDebugLines_guest { info with guestAmount := none } env h]
    rfl
  · rw [buildDebugLines_guest { info with guestCurrency := some "" } env h,
        buildDebugLines_guest { info with guestCurrency := none } env h]
    rfl
  · rw [buildDebugLines_guest { info with guestAsset := some "" } env h,
        buildDebugLines_guest { info with guestAsset := none } env h]
    rfl
  · rw [buildDebugLines_guest { info with guestNetwork := some "" } env h,
        buildDebugLines_guest { info with guestNetwork := none } env h]
    rfl
  · rw [buildDebugLines_guest { info with guestPaymentMethod := some "" } env h,
        buildDebugLines_guest { info with guestPaymentMethod := none } env h]
    rfl
  · rw [buildDebugLines_guest { info with guestTransactionIdAtCreate := some "" } env h,
        buildDebugLines_guest { info with guestTransactionIdAtCreate := none } env h]
    rfl
  · exact not_mem_buildDebugLines_guest info env h
      (by decide)
      ((append_ne_of_take (by decide) ft).symm)
      ((append_ne_self (jsOr_ne_empty _ (jsOr_ne_empty _ (by decide)))).symm)
      ((append_ne_of_take (by decide) _).symm)
      ((append_ne_of_take (by decide) _).symm)
      ((append_ne_of_take (by decide) _).symm)
      ((append_ne_of_take (by decide) _).symm)
      ((append_ne_of_take (by decide) _).symm)
      (not_mem_optLine _ _ fun s => append_ne_of_take (by decide) s)
      (not_mem_optLine _ _ fun s => append_ne_of_take (by decide) s)
      (not_mem_optLine _ _ fun s => append_ne_of_take (by decide) s)
      (not_mem_optLine _ _ fun s => append_ne_of_take (by decide) s)
      ((append_ne_of_take (by decide) _).symm)
      ((append_ne_of_take (by decide) _).symm)
      ((append_ne_of_take (by decide) _).symm)
      ((append_ne_of_take (by decide) _).symm)
      (not_mem_sandboxSeg env.sandboxMode (by decide))
      (not_mem_optLine _ _ fun s => append_ne_of_take (by decide) s)
      (not_mem_optLine _ _ fun s => append_ne_of_take (by decide) s)
      (by decide)
  · exact not_mem_buildDebugLines_guest info env h
      (by decide)
      ((append_ne_of_take (by decide) ft).symm)
      ((append_ne_of_take (by decide) _).symm)
      ((append_ne_self (jsOr_ne_empty _ (by decide))).symm)
      ((append_ne_of_take (by decide) _).symm)
      ((append_ne_of_take (by decide) _).symm)
      ((append_ne_of_take (by decide) _).symm)
      ((append_ne_of_take (by decide) _).symm)
      (not_mem_optLine _ _ fun s => append_ne_of_take (by decide) s)
      (not_mem_optLine _ _ fun s => append_ne_of_take (by decide) s)
      (not_mem_optLine _ _ fun s => append_ne_of_take (by decide) s)
      (not_mem_optLine _ _ fun s => append_ne_of_take (by decide) s)
      ((append_ne_of_take (by decide) _).symm)
      ((append_ne_of_take (by decide) _).symm)
      ((append_ne_of_take (by decide) _).symm)
      ((append_ne_of_take (by decide) _).symm)
      (not_mem_sandboxSeg env.sandboxMode (by decide))
      (not_mem_optLine _ _ fun s => append_ne_of_take (by decide) s)
      (not_mem_optLine _ _ fun s => append_ne_of_take (by decide) s)
      (by decide)
  · exact not_mem_buildDebugLines_guest info env h
      (by decide)
      ((append_ne_of_take (by decide) ft).symm)
      ((append_ne_of_take (by decide) _).symm)
      ((append_ne_of_take (by decide) _).symm)
      ((append_ne_self (jsOr_ne_empty _ (generateDeviceId_ne_empty env.devRand))).symm)
      ((append_ne_of_take (by decide) _).symm)
      ((append_ne_of_take (by decide) _).symm)
      ((append_ne_of_take (by decide) _).symm)
      (not_mem_optLine _ _ fun s => append_ne_of_take (by decide) s)
      (not_mem_optLine _ _ fun s => append_ne_of_take (by decide) s)
      (not_mem_optLine _ _ fun s => append_ne_of_take (by decide) s)
      (not_mem_optLine _ _ fun s => append_ne_of_take (by decide) s)
      ((append_ne_of_take (by decide) _).symm)
      ((append_ne_of_take (by decide) _).symm)
      ((append_ne_of_take (by decide) _).symm)
      ((append_ne_of_take (by decide) _).symm)
      (not_mem_sandboxSeg env.sandboxMode (by decide))
      (not_mem_optLine _ _ fun s => append_ne_of_take (by decide) s)
      (not_mem_optLine _ _ fun s => append_ne_of_take (by decide) s)
      (by decide)
  · exact not_mem_buildDebugLines_guest info env h
      (by decide)
      ((append_ne_of_take (by decide) ft).symm)
      ((append_ne_of_take (by decide) _).symm)
      ((append_ne_of_take (by decide) _).symm)
      ((append_ne_of_take (by decide) _).symm)
      ((append_ne_self (jsOr_ne_empty _ (generateSimpleEntityHash_ne_empty env))).symm)
      ((append_ne_of_take (by decide) _).symm)
      ((append_ne_of_take (by decide) _).symm)
      (not_mem_optLine _ _ fun s => append_ne_of_take (by decide) s)
      (not_mem_optLine _ _ fun s => append_ne_of_take (by decide) s)
      (not_mem_optLine _ _ fun s => append_ne_of_take (by decide) s)
      (not_mem_optLine _ _ fun s => append_ne_of_take (by decide) s)
      ((append_ne_of_take (by decide) _).symm)
      ((append_ne_of_take (by decide) _).symm)
      ((append_ne_of_take (by decide) _).symm)
      ((append_ne_of_take (by decide) _).symm)
      (not_mem_sandboxSeg env.sandboxMode (by decide))
      (not_mem_optLine _ _ fun s => append_ne_of_take (by decide) s)
      (not_mem_optLine _ _ fun s => append_ne_of_take (by decide) s)
      (by decide)
  · exact not_mem_buildDebugLines_guest info env h
      (by decide)
      ((append_ne_of_take (by decide) ft).symm)
      ((append_ne_of_take (by decide) _).symm)
      ((append_ne_of_take (by decide) _).symm)
      ((append_ne_of_take (by decide) _).symm)
      ((append_ne_of_take (by decide) _).symm)
      ((append_ne_self (jsOr_ne_empty _ (by decide))).symm)
      ((append_ne_of_take (by decide) _).symm)
      (not_mem_optLine _ _ fun s => append_ne_of_take (by decide) s)
      (not_mem_optLine _ _ fun s => append_ne_of_take (by decide) s)
      (not_mem_optLine _ _ fun s => append_ne_of_take (by decide) s)
      (not_mem_optLine _ _ fun s => append_ne_of_take (by decide) s)
      ((append_ne_of_take (by decide) _).symm)
      ((append_ne_of_take (by decide) _).symm)
      ((append_ne_of_take (by decide) _).symm)
      ((append_ne_of_take (by decide) _).symm)
      (not_mem_sandboxSeg env.sandboxMode (by decide))
      (not_mem_optLine _ _ fun s => append_ne_of_take (by decide) s)
      (not_mem_optLine _ _ fun s => append_ne_of_take (by decide) s)
      (by decide)
  · exact not_mem_buildDebugLines_guest info env h
      (by decide)
      ((append_ne_of_take (by decide) ft).symm)
      ((append_ne_of_take (by decide) _).symm)
      ((append_ne_of_take (by decide) _).symm)
      ((append_ne_of_take (by decide) _).symm)
      ((append_ne_of_take (by decide) _).symm)
      ((append_ne_of_take (by decide) _).symm)
      ((append_ne_self (jsOr_ne_empty _ (by decide))).symm)
      (not_mem_optLine _ _ fun s => append_ne_of_take (by decide) s)
      (not_mem_optLine _ _ fun s => append_ne_of_take (by decide) s)
      (not_mem_optLine _ _ fun s => append_ne_of_take (by decide) s)
      (not_mem_optLine _ _ fun s => append_ne_of_take (by decide) s)
      ((append_ne_of_take (by decide) _).symm)
      ((append_ne_of_take (by decide) _).symm)
      ((append_ne_of_take (by decide) _).symm)
      ((append_ne_of_take (by decide) _).symm)
      (not_mem_sandboxSeg env.sandboxMode (by decide))
      (not_mem_optLine _ _ fun s => append_ne_of_take (by decide) s)
      (not_mem_optLine _ _ fun s => append_ne_of_take (by decide) s)
      (by decide)
  · intro hempty v
    exact not_mem_buildDebugLines_guest info env h
      (append_ne_of_take (by decide) v)
      (append_ne_append 0 (by decide) (by decide) (by decide) v ft)
      (append_ne_append 0 (by decide) (by decide) (by decide) v _)
      (append_ne_append 0 (by decide) (by decide) (by decide) v _)
      (append_ne_append 0 (by decide) (by decide) (by decide) v _)
      (append_ne_append 5 (by decide) (by decide) (by decide) v _)
      (append_ne_append 6 (by decide) (by decide) (by decide) v _)
      (append_ne_append 5 (by decide) (by decide) (by decide) v _)
      (by rw [hempty]; simp [optLine])
      (not_mem_optLine _ _ fun s => append_ne_append 5 (by decide) (by decide) (by decide) s v)
      (not_mem_optLine _ _ fun s => append_ne_append 5 (by decide) (by decide) (by decide) s v)
      (not_mem_optLine _ _ fun s => append_ne_append 5 (by decide) (by decide) (by decide) s v)
      (append_ne_append 0 (by decide) (by decide) (by decide) v _)
      (append_ne_append 0 (by decide) (by decide) (by decide) v _)
      (append_ne_append 0 (by decide) (by decide) (by decide) v _)
      (append_ne_append 0 (by decide) (by decide) (by decide) v _)
      (not_mem_sandboxSeg env.sandboxMode (append_ne_of_take (by decide) v))
      (not_mem_optLine _ _ fun s => append_ne_append 0 (by decide) (by decide) (by decide) s v)
      (not_mem_optLine _ _ fun s => append_ne_append 0 (by decide) (by decide) (by decide) s v)
      (append_ne_of_take (by decide) v)
  · intro hempty v
    exact not_mem_buildDebugLines_guest info env h
      (append_ne_of_take (by decide) v)
      (append_ne_append 0 (by decide) (by decide) (by decide) v ft)
      (append_ne_append 0 (by decide) (by decide) (by decide) v _)
      (append_ne_append 0 (by decide) (by decide) (by decide) v _)
      (append_ne_append 0 (by decide) (by decide) (by decide) v _)
      (append_ne_append 5 (by decide) (by decide) (by decide) v _)
      (append_ne_append 5 (by decide) (by decide) (by decide) v _)
      (append_ne_append 5 (by decide) (by decide) (by decide) v _)
      (not_mem_optLine _ _ fun s => append_ne_append 5 (by decide) (by decide) (by decide) s v)
      (by rw [hempty]; simp [optLine])
      (not_mem_optLine _ _ fun s => append_ne_append 5 (by decide) (by decide) (by decide) s v)
      (not_mem_optLine _ _ fun s => append_ne_append 5 (by decide) (by decide) (by decide) s v)
      (append_ne_append 0 (by decide) (by decide) (by decide) v _)
      (append_ne_append 0 (by decide) (by decide) (by decide) v _)
      (append_ne_append 0 (by decide) (by decide) (by decide) v _)
      (append_ne_append 0 (by decide) (by decide) (by decide) v _)
      (not_mem_sandboxSeg env.sandboxMode (append_ne_of_take (by decide) v))
      (not_mem_optLine _ _ fun s => append_ne_append 0 (by decide) (by decide) (by decide) s v)
      (not_mem_optLine _ _ fun s => append_ne_append 0 (by decide) (by decide) (by decide) s v)
      (append_ne_of_take (by decide) v)
  · intro hempty v
    exact not_mem_buildDebugLines_guest info env h
      (append_ne_of_take (by decide) v)
      (append_ne_append 0 (by decide) (by decide) (by decide) v ft)
      (append_ne_append 0 (by decide) (by decide) (by decide) v _)
      (append_ne_append 0 (by decide) (by decide) (by decide) v _)
      (append_ne_append 0 (by decide) (by decide) (by decide) v _)
      (append_ne_append 5 (by decide) (by decide) (by decide) v _)
      (append_ne_append 5 (by decide) (by decide) (by decide) v _)
      (append_ne_append 5 (by decide) (by decide) (by decide) v _)
      (not_mem_optLine _ _ fun s => append_ne_append 5 (by decide) (by decide) (by decide) s v)
      (not_mem_optLine _ _ fun s => append_ne_append 5 (by decide) (by decide) (by decide) s v)
      (by rw [hempty]; simp [optLine])
      (not_mem_optLine _ _ fun s => append_ne_append 6 (by decide) (by decide) (by decide) s v)
      (append_ne_append 0 (by decide) (by decide) (by decide) v _)
      (append_ne_append 0 (by decide) (by decide) (by decide) v _)
      (append_ne_append 0 (by decide) (by decide) (by decide) v _)
      (append_ne_append 0 (by decide) (by decide) (by decide) v _)
      (not_mem_sandboxSeg env.sandboxMode (append_ne_of_take (by decide) v))
      (not_mem_optLine _ _ fun s => append_ne_append 0 (by decide) (by decide) (by decide) s v)
      (not_mem_optLine _ _ fun s => append_ne_append 0 (by decide) (by decide) (by decide) s v)
      (append_ne_of_take (by decide) v)
  · intro hempty v
    exact not_mem_buildDebugLines_guest info env h
      (append_ne_of_take (by decide) v)
      (append_ne_append 0 (by decide) (by decide) (by decide) v ft)
      (append_ne_append 0 (by decide) (by decide) (by decide) v _)
      (append_ne_append 0 (by decide) (by decide) (by decide) v _)
      (append_ne_append 0 (by decide) (by decide) (by decide) v _)
      (append_ne_append 5 (by decide) (by decide) (by decide) v _)
      (append_ne_append 5 (by decide) (by decide) (by decide) v _)
      (append_ne_append 5 (by decide) (by decide) (by decide) v _)
      (not_mem_optLine _ _ fun s => append_ne_append 5 (by decide) (by decide) (by decide) s v)
      (not_mem_optLine _ _ fun s => append_ne_append 5 (by decide) (by decide) (by decide) s v)
      (not_mem_optLine _ _ fun s => append_ne_append 6 (by decide) (by decide) (by decide) s v)
      (by rw [hempty]; simp [optLine])
      (append_ne_append 0 (by decide) (by decide) (by decide) v _)
      (append_ne_append 0 (by decide) (by decide) (by decide) v _)
      (append_ne_append 0 (by decide) (by decide) (by decide) v _)
      (append_ne_append 0 (by decide) (by decide) (by decide) v _)
      (not_mem_sandboxSeg env.sandboxMode (append_ne_of_take (by decide) v))
      (not_mem_optLine _ _ fun s => append_ne_append 0 (by decide) (by decide) (by decide) s v)
      (not_mem_optLine _ _ fun s => append_ne_append 0 (by decide) (by decide) (by decide) s v)
      (append_ne_of_take (by decide) v)

/-- Witness for C10: at a guest input whose fields are all empty strings,
the empty appId behaves as the absent one, the deviceId line carries the
generated fallback (never the empty value), and no guestAsset line is
emitted at all. -/
theorem claim_C10_witness :
    buildDebugLines { infoGuestFalsy with appId := some "" } envW
      = buildDebugLines { infoGuestFalsy with appId := none } envW
    ∧ "deviceId: " ∉ buildDebugLines infoGuestFalsy envW
    ∧ ∀ v, ("guestAsset: " ++ v) ∉ buildDebugLines infoGuestFalsy envW := by
  obtain ⟨c1, c2, c3, c4, c5, c6, c7, c8, c9, c10, c11, c12, c13, c14, c15, c16,
    c17, c18, c19, c20⟩ := claim_C10_falsy_guest_fields infoGuestFalsy envW "guest" rfl
  exact ⟨c1, c13, c17 rfl⟩

end SupportEmail
